import Mathlib

/-!
Verification of the playback synchronization and device-command-dispatch core of
the `ive-connect` library, as a shallow embedding of its TypeScript source.

JS numbers are modelled as rationals (`ℚ`); a JS value that may be `undefined`
or `NaN` is modelled as `Option ℚ` (`none` standing for the absent/NaN value).
Stateful class methods are modelled as explicit state-passing functions.
-/

/-- One script action, a timestamped position sample (a funscript `{at, pos}`
entry, `FunscriptAction` in core/device-interface). -/
structure FunAction where
  «at» : ℚ
  pos : ℚ
deriving DecidableEq

instance : Inhabited FunAction := ⟨⟨0, 0⟩⟩

namespace ButtplugDevice

/-- JS array read `actions[i]` as an optional value: a negative or
out-of-bounds index yields `undefined` (`none`). -/
def actionAtOpt (actions : List FunAction) (i : Int) : Option FunAction :=
  if h : 0 ≤ i ∧ i.toNat < actions.length then some (actions.get ⟨i.toNat, h.2⟩)
  else none

/-- JS array read `actions[i]` at call sites where the index is in bounds in
every reachable call (the out-of-range default is never observed there). -/
def actionAt (actions : List FunAction) (i : Int) : FunAction :=
  (actionAtOpt actions i).getD default

/-- The `while (low <= high)` binary-search loop of
`ButtplugDevice._findActionIndexForTime` (buttplug-device.ts, lines 632-644).
`mid` is `Math.floor((low + high) / 2)`, which is integer floor division.
The loop is embedded with a structural `fuel` bounding the iteration count;
`high + 1 - low` iterations always suffice (each pass shrinks the window by at
least one), so the initial fuel `actions.length` used by
`findActionIndexForTime` makes the embedding compute exactly what the loop
does. -/
def bsearchGo (actions : List FunAction) (timeMs : ℚ) :
    Nat → Int → Int → Int → Int
  | 0, _, _, bestIndex => bestIndex
  | fuel + 1, low, high, bestIndex =>
    if low ≤ high then
      let mid := (low + high) / 2
      if (actionAt actions mid).«at» ≤ timeMs then
        bsearchGo actions timeMs fuel (mid + 1) high mid
      else
        bsearchGo actions timeMs fuel low (mid - 1) bestIndex
    else bestIndex

/-- `ButtplugDevice._findActionIndexForTime` (buttplug-device.ts, lines
613-652): `-1` on an empty list; the last index when past the final
timestamp; `0` before the first timestamp; otherwise the binary-search floor
index (greatest `i` with `actions[i].at <= timeMs`) plus one, clamped to the
last index. -/
def findActionIndexForTime (actions : List FunAction) (timeMs : ℚ) : Int :=
  if actions.length = 0 then -1
  else if timeMs > (actionAt actions ((actions.length : Int) - 1)).«at» then
    (actions.length : Int) - 1
  else if timeMs < (actionAt actions 0).«at» then 0
  else
    let bestIndex := bsearchGo actions timeMs actions.length 0
      ((actions.length : Int) - 1) (-1)
    if bestIndex < (actions.length : Int) - 1 then bestIndex + 1 else bestIndex

/-- Connection state of the device (core/device-interface `ConnectionState`). -/
inductive ConnState
  | disconnected
  | connecting
  | connected
deriving DecidableEq

/-- The mutable fields of the `ButtplugDevice` class that the playback engine
reads or writes. `loadedScript` is the truthiness of `_loadedScript`;
`playbackIntervalSet` is whether `_playbackInterval` holds a live timer. -/
structure DeviceState where
  connectionState : ConnState
  isPlaying : Bool
  loadedScript : Bool
  currentScriptActions : List FunAction
  lastActionIndex : Int
  playbackIntervalSet : Bool
  playbackStartTime : ℚ
  playbackRate : ℚ
  loopPlayback : Bool
deriving DecidableEq

/-- The `isConnected` getter: `_connectionState === ConnectionState.CONNECTED`. -/
def DeviceState.isConnected (s : DeviceState) : Bool :=
  s.connectionState = ConnState.connected

/-- `ButtplugDevice.stop` (lines 454-488), restricted to its effect on the
modelled state: clear the playback interval, stop devices (a network call with
no effect on these fields), set `_isPlaying := false` and
`_lastActionIndex := -1`.  When not connected it only reports failure. -/
def stop (s : DeviceState) : Bool × DeviceState :=
  if ¬ s.isConnected then (false, s)
  else
    (true, { s with
      playbackIntervalSet := false
      isPlaying := false
      lastActionIndex := -1 })

/-- `ButtplugDevice.play(timeMs, playbackRate, loop)` (lines 384-449): fails
when not connected or when no script with at least one action is loaded;
otherwise stops any existing playback, anchors
`_playbackStartTime = now - timeMs`, resets `_lastActionIndex = -1`, marks
playing and schedules the 20 ms action-processing interval. -/
def play (s : DeviceState) (now timeMs playbackRate : ℚ) (loop : Bool) :
    Bool × DeviceState :=
  if ¬ s.isConnected then (false, s)
  else if ¬ s.loadedScript ∨ s.currentScriptActions.length = 0 then (false, s)
  else
    let s1 := if s.isPlaying then (stop s).2 else s
    (true, { s1 with
      playbackStartTime := now - timeMs
      playbackRate := playbackRate
      loopPlayback := loop
      lastActionIndex := -1
      isPlaying := true
      playbackIntervalSet := true })

/-- `ButtplugDevice.syncTime(timeMs)` (lines 493-506): when connected and
playing, re-anchor `_playbackStartTime = Date.now() - timeMs` and report
success; otherwise report failure and touch nothing. -/
def syncTime (s : DeviceState) (now timeMs : ℚ) : Bool × DeviceState :=
  if ¬ s.isConnected ∨ ¬ s.isPlaying then (false, s)
  else (true, { s with playbackStartTime := now - timeMs })

/-- What a single `_processActions` tick does besides updating the state:
nothing, a loop reset, firing `this.stop()`, or dispatching
`executeAction(pos, prevPos, durationMs)` to the command executor.
`durationMs` is `Option ℚ` because the JS computation can produce `NaN`
(modelled as `none`). -/
inductive TickEffect
  | noop
  | loopReset
  | stopScript
  | dispatch (pos prevPos : ℚ) (durationMs : Option ℚ)
deriving DecidableEq

/-- JS subtraction where either operand may be `undefined`: any `undefined`
operand makes the result `NaN` (`none`). -/
def jsSub : Option ℚ → Option ℚ → Option ℚ
  | some a, some b => some (a - b)
  | _, _ => none

/-- `Math.max(100, d)` where `d` may be `NaN`: `Math.max` propagates `NaN`. -/
def jsMax100 : Option ℚ → Option ℚ :=
  Option.map (fun d => max 100 d)

/-- `ButtplugDevice._processActions` (buttplug-device.ts, lines 545-608), one
tick at wall-clock time `now`.  Mirrors the source: early return when not
playing or no actions; `elapsedMs = (now - _playbackStartTime) *
_playbackRate`; resolve the action index; end-of-script handling with the
1000 ms tolerance (loop reset or fire-and-forget `stop()`); otherwise, when
the resolved index differs from `_lastActionIndex`, dispatch the action with
`durationMs = max(100, action.at - actions[actionIndex - 1]?.at)` when
`actionIndex < length - 1` (for `actionIndex = 0` the predecessor read is
`undefined`, so this is `NaN`) and the 500 ms default otherwise, then record
`_lastActionIndex = actionIndex`. -/
def processActions (s : DeviceState) (now : ℚ) : TickEffect × DeviceState :=
  if ¬ s.isPlaying ∨ s.currentScriptActions.length = 0 then (.noop, s)
  else
    let elapsedMs := (now - s.playbackStartTime) * s.playbackRate
    let actionIndex := findActionIndexForTime s.currentScriptActions elapsedMs
    if actionIndex = (s.currentScriptActions.length : Int) - 1 ∧
        elapsedMs > (actionAt s.currentScriptActions actionIndex).«at» + 1000 then
      if s.loopPlayback then
        (.loopReset, { s with playbackStartTime := now, lastActionIndex := -1 })
      else
        (.stopScript, (stop s).2)
    else if actionIndex ≠ s.lastActionIndex ∧ 0 ≤ actionIndex then
      let action := actionAt s.currentScriptActions actionIndex
      let prevPos :=
        if 0 < actionIndex then (actionAt s.currentScriptActions (actionIndex - 1)).pos
        else 0
      let durationMs : Option ℚ :=
        if actionIndex < (s.currentScriptActions.length : Int) - 1 then
          jsMax100 (jsSub (some action.«at»)
            ((actionAtOpt s.currentScriptActions (actionIndex - 1)).map (·.«at»)))
        else some 500
      (.dispatch action.pos prevPos durationMs,
        { s with lastActionIndex := actionIndex })
    else (.noop, s)

end ButtplugDevice

namespace ScriptLoader

/-- A parsed funscript object (core/device-interface `Funscript`), as seen by
`loadScript`.  `actions = none` models a JSON object without an `actions`
array; metadata fields irrelevant to the playback core are omitted. -/
structure Funscript where
  actions : Option (List FunAction)
  inverted : Bool
deriving DecidableEq

/-- `isValidFunscript` (script-loader.ts, lines 71-90): the content is an
object whose `actions` field is an array of `{at: number, pos: number}`
entries.  In the typed embedding the per-entry checks hold by construction,
so validity is the presence of the array. -/
def isValidFunscript (f : Funscript) : Bool :=
  f.actions.isSome

/-- `invertFunscript` (script-loader.ts, lines 57-66): flip every position to
`100 - pos` and toggle the `inverted` flag. -/
def invertFunscript (f : Funscript) : Funscript :=
  { f with
    actions := f.actions.map (List.map (fun a => { a with pos := 100 - a.pos }))
    inverted := !f.inverted }

/-- `funscript.actions.sort((a, b) => a.at - b.at)` (script-loader.ts, line
195): a stable comparison sort ascending by `at`, modelled by insertion
sort. -/
def sortActions (l : List FunAction) : List FunAction :=
  List.insertionSort (fun a b => a.«at» ≤ b.«at») l

/-- `LoadScriptResult` (script-loader.ts, lines 95-99). -/
structure LoadScriptResult where
  success : Bool
  funscript : Option Funscript
  error : Option String
deriving DecidableEq

/-- `loadScript` (script-loader.ts, lines 108-210) on the direct-content path
(the URL paths go through `fetch`, an I/O boundary outside this embedding,
and funnel into the same validation and post-processing): validate the
content, reject an empty or missing action list, then apply inversion if
requested and sort ascending by timestamp. -/
def loadScript (content : Funscript) (invertScript : Bool) : LoadScriptResult :=
  if ¬ isValidFunscript content then
    { success := false, funscript := none
      error := some "Invalid funscript format: content is not a valid funscript" }
  else
    match content.actions with
    | none =>
      { success := false, funscript := none
        error := some "Invalid funscript: no actions found" }
    | some acts =>
      if acts.length = 0 then
        { success := false, funscript := none
          error := some "Invalid funscript: no actions found" }
      else
        let f1 := if invertScript then invertFunscript content else content
        let f2 := { f1 with actions := f1.actions.map sortActions }
        { success := true, funscript := some f2, error := none }

end ScriptLoader

namespace CommandHelpers

/-- `ButtplugDeviceInfo` (buttplug types): device index and capability flags
discovered at connect time.  The display name plays no role in command
translation and is omitted. -/
structure ButtplugDeviceInfo where
  index : Nat
  canVibrate : Bool
  canRotate : Bool
  canLinear : Bool
deriving DecidableEq

/-- `DevicePreference` (buttplug types): user-controlled per-device flags;
`intensity` is optional (`intensity?: number`). -/
structure DevicePreference where
  enabled : Bool
  useVibrate : Bool
  useRotate : Bool
  useLinear : Bool
  intensity : Option ℚ
deriving DecidableEq

/-- `convertScriptPositionToDevicePosition` (command-helpers.ts, lines 12-28):
clamp `scriptPos / 100` into `[0, 1]`, optionally invert, scale into
`[lo, hi]`. -/
def convertScriptPositionToDevicePosition
    (scriptPos lo hi : ℚ) (invert : Bool) : ℚ :=
  let normalized := min 1 (max 0 (scriptPos / 100))
  let normalized := if invert then 1 - normalized else normalized
  lo + normalized * (hi - lo)

/-- A primitive wire command emitted by the per-device executor:
`api.linearDevice`, `api.vibrateDevice` or `api.rotateDevice`. -/
inductive ButtplugCommand
  | linear (index : Nat) (position : ℚ) (durationMs : Option ℚ)
  | vibrate (index : Nat) (speed : ℚ)
  | rotate (index : Nat) (speed : ℚ) (clockwise : Bool)
deriving DecidableEq

/-- The vibration/rotation intensity computed by `executeAction`
(command-helpers.ts, lines 70-75): `(|pos - prevPos| / 100) * intensity`,
then `min(1.0, · * 5)`; an absent `intensity` preference defaults to `1.0`. -/
def vibrationSpeedFor (prefs : DevicePreference) (pos prevPos : ℚ) : ℚ :=
  let intensity := prefs.intensity.getD 1
  min 1 ((|pos - prevPos| / 100 * intensity) * 5)

/-- The commands sent by one `executeAction(pos, prevPos, durationMs)` call of
the executor built by `createDeviceCommandExecutor` (command-helpers.ts,
lines 33-113), in emission order.  A disabled device gets the no-op executor
and emits nothing.  Vibrate/rotate commands are suppressed unless the
movement-derived speed exceeds the `0.05` dead zone. -/
def executeActionCommands (info : ButtplugDeviceInfo) (prefs : DevicePreference)
    (pos prevPos : ℚ) (durationMs : Option ℚ) : List ButtplugCommand :=
  if ¬ prefs.enabled then []
  else
    let position := convertScriptPositionToDevicePosition pos 0 1 false
    let vibrationSpeed := vibrationSpeedFor prefs pos prevPos
    let rotationSpeed := vibrationSpeed
    (if info.canLinear ∧ prefs.useLinear then
      [ButtplugCommand.linear info.index position durationMs] else []) ++
    (if info.canVibrate ∧ prefs.useVibrate ∧ vibrationSpeed > 0.05 then
      [ButtplugCommand.vibrate info.index vibrationSpeed] else []) ++
    (if info.canRotate ∧ prefs.useRotate ∧ rotationSpeed > 0.05 then
      [ButtplugCommand.rotate info.index rotationSpeed true] else [])

end CommandHelpers

namespace HandyApi

/-- One collected clock-probe sample of `syncServerTime` (handy/types.ts):
round-trip delay and estimated offset. -/
structure TimeSample where
  rtd : ℚ
  offset : ℚ
deriving DecidableEq

/-- The observable outcome of one probe iteration in `syncServerTime`
(handy/types.ts, lines 437-456): the awaited `getServerTime` either threw
(caught, warned, skipped) or returned a server time (`none` = `null`),
with the local clock read before (`start`) and after (`fin`). -/
inductive ProbeOutcome
  | threw
  | serverTime (t : Option ℚ) (start fin : ℚ)
deriving DecidableEq

/-- One loop iteration of `syncServerTime`: a thrown probe or a falsy server
time (`if (!serverTime) continue`, which skips both `null` and `0`) yields no
sample; otherwise `rtd = end - start`, `serverTimeEst = rtd / 2 + serverTime`,
`offset = serverTimeEst - end`. -/
def sampleOfProbe : ProbeOutcome → Option TimeSample
  | .threw => none
  | .serverTime none _ _ => none
  | .serverTime (some st) start fin =>
    if st = 0 then none
    else
      let rtd := fin - start
      let serverTimeEst := rtd / 2 + st
      some { rtd := rtd, offset := serverTimeEst - fin }

/-- The sample list accumulated by the probe loop of `syncServerTime`. -/
def collectSamples (probes : List ProbeOutcome) : List TimeSample :=
  probes.filterMap sampleOfProbe

instance : IsTotal TimeSample (fun a b => a.rtd ≤ b.rtd) :=
  ⟨fun a b => le_total a.rtd b.rtd⟩

instance : IsTrans TimeSample (fun a b => a.rtd ≤ b.rtd) :=
  ⟨fun _ _ _ hab hbc => le_trans hab hbc⟩

/-- `samples.sort((a, b) => a.rtd - b.rtd)` (handy/types.ts, line 460): a
stable comparison sort ascending by round-trip delay, modelled by insertion
sort. -/
def sortSamplesByRtd (samples : List TimeSample) : List TimeSample :=
  List.insertionSort (fun a b => a.rtd ≤ b.rtd) samples

/-- `Math.ceil(n * 0.8)` for a sample count `n`. -/
def ceil80 (n : Nat) : Nat :=
  (4 * n + 4) / 5

/-- The retained samples of `syncServerTime` (handy/types.ts, lines 462-466):
the lowest-delay `Math.ceil(length * 0.8)` samples when more than 3 were
collected, the full sorted set otherwise. -/
def usableSamples (samples : List TimeSample) : List TimeSample :=
  let sorted := sortSamplesByRtd samples
  if samples.length > 3 then sorted.take (ceil80 samples.length) else sorted

/-- The tail of `syncServerTime` (handy/types.ts, lines 458-476) after the
samples are collected: with at least one sample, store and return the
arithmetic mean of the retained samples' offsets; with none, keep and return
the previous `serverTimeOffset`.  Result: (returned value, stored
`serverTimeOffset` after the call). -/
def syncFromSamples (samples : List TimeSample) (serverTimeOffset : ℚ) : ℚ × ℚ :=
  if samples.length > 0 then
    let usable := usableSamples samples
    let averageOffset :=
      (usable.foldl (fun acc sample => acc + sample.offset) 0) / (usable.length : ℚ)
    (averageOffset, averageOffset)
  else (serverTimeOffset, serverTimeOffset)

/-- `HandyApi.syncServerTime` (handy/types.ts, lines 433-481) as a function of
the probe outcomes and the previously stored offset estimate. -/
def syncServerTime (probes : List ProbeOutcome) (serverTimeOffset : ℚ) : ℚ × ℚ :=
  syncFromSamples (collectSamples probes) serverTimeOffset

end HandyApi

namespace ButtplugWs

/-- The fields of the `ButtplugWs` transport (buttplug-ws.ts) that the
pending-request bookkeeping touches.  `pending` lists the message ids of
in-flight correlated requests in insertion order (the values of the JS `Map`
are the resolve/reject closures, modelled by the rejection events `cleanup`
emits); `wsOpen` is `none` when `ws` is `null`, `some b` for a socket whose
`readyState` is `OPEN` iff `b`. -/
structure WsState where
  msgId : Nat
  pending : List Nat
  pingTimerSet : Bool
  wsOpen : Option Bool
deriving DecidableEq

/-- `ButtplugWs.cleanup` (buttplug-ws.ts, lines 115-125), run on socket close
and from `close()`: stop the ping timer, reject every pending request with
`Error("Connection closed")`, clear the map, null the socket.  Returns the
emitted rejections (id, error message) in iteration order, with the new
state. -/
def cleanup (s : WsState) : List (Nat × String) × WsState :=
  (s.pending.map (fun id => (id, "Connection closed")),
    { s with pingTimerSet := false, pending := [], wsOpen := none })

/-- `ButtplugWs.close` (buttplug-ws.ts, lines 82-85): call `ws.close()` when
the socket is open (a transport call with no effect on the modelled fields;
the eventual `onclose` runs `cleanup` again on an already-empty map), then run
`cleanup`. -/
def close (s : WsState) : List (Nat × String) × WsState :=
  cleanup s

end ButtplugWs

namespace ButtplugDevice

/-- A timeline sorted ascending by `at` (duplicate timestamps permitted), the
invariant `loadScript` establishes before playback. -/
abbrev SortedByAt (actions : List FunAction) : Prop :=
  List.Sorted (fun a b => a.«at» ≤ b.«at») actions

/-- The three-action timeline of the scenario claims:
`[{at:0,pos:0},{at:1000,pos:100},{at:2000,pos:0}]`. -/
def timeline3 : List FunAction :=
  [⟨0, 0⟩, ⟨1000, 100⟩, ⟨2000, 0⟩]

/-- A connected, idle device with a loaded script, before `play` is called. -/
def readyState (actions : List FunAction) : DeviceState :=
  { connectionState := .connected
    isPlaying := false
    loadedScript := true
    currentScriptActions := actions
    lastActionIndex := -1
    playbackIntervalSet := false
    playbackStartTime := 0
    playbackRate := 1
    loopPlayback := false }

/-- A connected device mid-playback, anchored at `playbackStartTime = 0` with
rate 1, with `lastActionIndex = lastIdx`. -/
def playingState (actions : List FunAction) (lastIdx : Int) (loop : Bool) :
    DeviceState :=
  { connectionState := .connected
    isPlaying := true
    loadedScript := true
    currentScriptActions := actions
    lastActionIndex := lastIdx
    playbackIntervalSet := true
    playbackStartTime := 0
    playbackRate := 1
    loopPlayback := loop }

end ButtplugDevice

/-! ## Properties of the timeline lookup -/

namespace ButtplugDevice

theorem actionAt_eq_get (actions : List FunAction) (i : Int) (h0 : 0 ≤ i)
    (h : i.toNat < actions.length) :
    actionAt actions i = actions.get ⟨i.toNat, h⟩ := by
  simp [actionAt, actionAtOpt, h0, h]

theorem at_mono (actions : List FunAction) (hs : SortedByAt actions)
    {i j : Int} (h0 : 0 ≤ i) (hij : i ≤ j) (hj : j < (actions.length : Int)) :
    (actionAt actions i).«at» ≤ (actionAt actions j).«at» := by
  have h0j : 0 ≤ j := le_trans h0 hij
  have hj' : j.toNat < actions.length := by omega
  have hi' : i.toNat < actions.length := by omega
  rw [actionAt_eq_get actions i h0 hi', actionAt_eq_get actions j h0j hj']
  rcases eq_or_lt_of_le hij with rfl | hlt
  · exact le_refl _
  · have hnat : i.toNat < j.toNat := by omega
    have hp : List.Pairwise (fun a b : FunAction => a.«at» ≤ b.«at») actions := hs
    exact List.pairwise_iff_get.mp hp ⟨i.toNat, hi'⟩ ⟨j.toNat, hj'⟩ hnat

/-- Invariant-based characterization of the binary-search loop: starting from
a window `[low, high]` whose outside-right part is strictly above `t` and with
`bestIndex = low - 1` recording the best hit so far, the loop returns the
greatest index whose timestamp is `≤ t`, or `-1` when there is none. -/
theorem bsearchGo_spec (actions : List FunAction) (t : ℚ) (hs : SortedByAt actions) :
    ∀ (fuel : Nat) (low high bestIndex : Int),
      (high + 1 - low).toNat ≤ fuel →
      0 ≤ low →
      low = bestIndex + 1 →
      high ≤ (actions.length : Int) - 1 →
      (bestIndex = -1 ∨
        (0 ≤ bestIndex ∧ bestIndex ≤ (actions.length : Int) - 1 ∧
          (actionAt actions bestIndex).«at» ≤ t)) →
      (∀ i : Int, high < i → i ≤ (actions.length : Int) - 1 →
        t < (actionAt actions i).«at») →
      (bsearchGo actions t fuel low high bestIndex = -1 ∧
        ∀ i : Int, 0 ≤ i → i ≤ (actions.length : Int) - 1 →
          t < (actionAt actions i).«at») ∨
      (0 ≤ bsearchGo actions t fuel low high bestIndex ∧
        bsearchGo actions t fuel low high bestIndex ≤ (actions.length : Int) - 1 ∧
        (actionAt actions (bsearchGo actions t fuel low high bestIndex)).«at» ≤ t ∧
        ∀ i : Int, bsearchGo actions t fuel low high bestIndex < i →
          i ≤ (actions.length : Int) - 1 → t < (actionAt actions i).«at») := by
  intro fuel
  induction fuel with
  | zero =>
    intro low high bestIndex hfuel h0 hlb hhn hbest hhigh
    have hlh : high < low := by omega
    simp only [bsearchGo]
    rcases hbest with rfl | ⟨hb0, hbn, hble⟩
    · left
      exact ⟨rfl, fun i hi0 hin => hhigh i (by omega) hin⟩
    · right
      exact ⟨hb0, hbn, hble, fun i hbi hin => hhigh i (by omega) hin⟩
  | succ fuel ih =>
    intro low high bestIndex hfuel h0 hlb hhn hbest hhigh
    by_cases hlh : low ≤ high
    · rw [bsearchGo, if_pos hlh]
      have hmid1 : low ≤ (low + high) / 2 := by omega
      have hmid2 : (low + high) / 2 ≤ high := by omega
      by_cases hA : (actionAt actions ((low + high) / 2)).«at» ≤ t
      · rw [if_pos hA]
        exact ih ((low + high) / 2 + 1) high ((low + high) / 2)
          (by omega) (by omega) rfl hhn
          (Or.inr ⟨by omega, by omega, hA⟩) hhigh
      · rw [if_neg hA]
        refine ih low ((low + high) / 2 - 1) bestIndex
          (by omega) h0 hlb (by omega) hbest ?_
        intro i hmi hin
        rcases eq_or_lt_of_le (by omega : (low + high) / 2 ≤ i) with rfl | hlt
        · exact not_le.mp hA
        · exact lt_of_lt_of_le (not_le.mp hA)
            (at_mono actions hs (by omega) (by omega) (by omega))
    · rw [bsearchGo, if_neg hlh]
      rcases hbest with rfl | ⟨hb0, hbn, hble⟩
      · left
        exact ⟨rfl, fun i hi0 hin => hhigh i (by omega) hin⟩
      · right
        exact ⟨hb0, hbn, hble, fun i hbi hin => hhigh i (by omega) hin⟩

end ButtplugDevice

namespace ButtplugDevice

/-- In the middle branch (neither past the end nor before the start), the
lookup is the binary-search floor index plus one, clamped to the last index,
where the floor index `r` is the greatest index with `actions[r].at ≤ t`. -/
theorem findActionIndexForTime_middle (actions : List FunAction) (t : ℚ)
    (hs : SortedByAt actions) (hne : actions ≠ [])
    (h1 : ¬ t > (actionAt actions ((actions.length : Int) - 1)).«at»)
    (h2 : ¬ t < (actionAt actions 0).«at») :
    ∃ r : Int,
      findActionIndexForTime actions t =
        (if r < (actions.length : Int) - 1 then r + 1 else r) ∧
      0 ≤ r ∧ r ≤ (actions.length : Int) - 1 ∧
      (actionAt actions r).«at» ≤ t ∧
      ∀ i : Int, r < i → i ≤ (actions.length : Int) - 1 →
        t < (actionAt actions i).«at» := by
  have hlen : actions.length ≠ 0 := fun h => hne (List.length_eq_zero.mp h)
  have hspec := bsearchGo_spec actions t hs actions.length 0
    ((actions.length : Int) - 1) (-1) (by omega) (by omega) (by omega)
    (by omega) (Or.inl rfl) (fun i hi hin => absurd (lt_of_lt_of_le hi hin) (lt_irrefl _))
  rcases hspec with ⟨_, hall⟩ | ⟨hr0, hrn, hrle, hrgt⟩
  · exact absurd (hall 0 le_rfl (by omega)) h2
  · refine ⟨bsearchGo actions t actions.length 0 ((actions.length : Int) - 1) (-1),
      ?_, hr0, hrn, hrle, hrgt⟩
    simp only [findActionIndexForTime, if_neg hlen, if_neg h1, if_neg h2]

/-- The lookup always lands in `[0, length - 1]` on a sorted non-empty
timeline. -/
theorem findActionIndexForTime_bounds (actions : List FunAction) (t : ℚ)
    (hs : SortedByAt actions) (hne : actions ≠ []) :
    0 ≤ findActionIndexForTime actions t ∧
      findActionIndexForTime actions t ≤ (actions.length : Int) - 1 := by
  have hlen : actions.length ≠ 0 := fun h => hne (List.length_eq_zero.mp h)
  by_cases h1 : t > (actionAt actions ((actions.length : Int) - 1)).«at»
  · simp only [findActionIndexForTime, if_neg hlen, if_pos h1]
    omega
  · by_cases h2 : t < (actionAt actions 0).«at»
    · simp only [findActionIndexForTime, if_neg hlen, if_neg h1, if_pos h2]
      omega
    · obtain ⟨r, heq, hr0, hrn, -, -⟩ :=
        findActionIndexForTime_middle actions t hs hne h1 h2
      rw [heq]
      split_ifs <;> omega

end ButtplugDevice

namespace ButtplugDevice

/-- Claim C1: on every non-empty timeline sorted ascending by `at`, the
action index resolved by `_findActionIndexForTime` is monotonically
nondecreasing in the elapsed time, across all of its branches (before-first,
past-end, and binary-search floor + 1). -/
theorem findActionIndexForTime_monotone (actions : List FunAction)
    (hs : SortedByAt actions) (hne : actions ≠ []) {e1 e2 : ℚ} (h12 : e1 < e2) :
    findActionIndexForTime actions e1 ≤ findActionIndexForTime actions e2 := by
  have hlen : actions.length ≠ 0 := fun h => hne (List.length_eq_zero.mp h)
  by_cases hb1 : e2 > (actionAt actions ((actions.length : Int) - 1)).«at»
  · have h2eq : findActionIndexForTime actions e2 = (actions.length : Int) - 1 := by
      simp only [findActionIndexForTime, if_neg hlen, if_pos hb1]
    rw [h2eq]
    exact (findActionIndexForTime_bounds actions e1 hs hne).2
  · have h1' : ¬ e1 > (actionAt actions ((actions.length : Int) - 1)).«at» := by
      push_neg at hb1 ⊢
      linarith
    by_cases hb2 : e1 < (actionAt actions 0).«at»
    · have h1eq : findActionIndexForTime actions e1 = 0 := by
        simp only [findActionIndexForTime, if_neg hlen, if_neg h1', if_pos hb2]
      rw [h1eq]
      exact (findActionIndexForTime_bounds actions e2 hs hne).1
    · have h2' : ¬ e2 < (actionAt actions 0).«at» := by
        push_neg at hb2 ⊢
        linarith
      obtain ⟨r1, heq1, h01, hn1, hle1, -⟩ :=
        findActionIndexForTime_middle actions e1 hs hne h1' hb2
      obtain ⟨r2, heq2, -, hn2, -, hgt2⟩ :=
        findActionIndexForTime_middle actions e2 hs hne hb1 h2'
      have hr : r1 ≤ r2 := by
        by_contra hcon
        push_neg at hcon
        have hlt := hgt2 r1 hcon hn1
        linarith
      rw [heq1, heq2]
      split_ifs <;> omega

/-- Witness for C1 at a concrete sorted timeline and elapsed times. -/
theorem findActionIndexForTime_monotone_witness :
    SortedByAt timeline3 ∧ timeline3 ≠ [] ∧ (300 : ℚ) < 1500 ∧
      findActionIndexForTime timeline3 300 ≤ findActionIndexForTime timeline3 1500 :=
  ⟨by decide, by decide, by decide,
    findActionIndexForTime_monotone timeline3 (by decide) (by decide) (by decide)⟩

end ButtplugDevice

namespace ButtplugDevice

/-- On the scenario timeline, any elapsed time in `[0, 1000)` resolves to
action index 1: the binary-search floor is 0 and the lookup returns
floor + 1. -/
theorem find_timeline3_between (t : ℚ) (h0 : 0 ≤ t) (h1 : t < 1000) :
    findActionIndexForTime timeline3 t = 1 := by
  have e0 : actionAt timeline3 0 = ⟨0, 0⟩ := by decide
  have e1 : actionAt timeline3 1 = ⟨1000, 100⟩ := by decide
  have e2 : actionAt timeline3 2 = ⟨2000, 0⟩ := by decide
  have hlen : (timeline3.length : Int) = 3 := by decide
  have hlen0 : timeline3.length ≠ 0 := by decide
  have c1 : ¬ t > (actionAt timeline3 ((timeline3.length : Int) - 1)).«at» := by
    rw [show ((timeline3.length : Int) - 1) = 2 by omega, e2]
    show ¬ t > (2000 : ℚ)
    linarith
  have c2 : ¬ t < (actionAt timeline3 0).«at» := by
    rw [e0]
    show ¬ t < (0 : ℚ)
    linarith
  simp only [findActionIndexForTime, if_neg hlen0, if_neg c1, if_neg c2]
  rw [show timeline3.length = 3 from by decide]
  simp only [bsearchGo, hlen]
  norm_num
  rw [e0, e1, e2]
  split_ifs <;> simp_all <;> linarith

/-- Claim C2: on the timeline `[{0,0},{1000,100},{2000,0}]`, after
`play(timeMs = 500)` the first tick (any tick fired before elapsed time
reaches 1000 ms, i.e. `now = now0 + d` with `0 ≤ d < 500`) resolves action
index 1 — the binary-search floor plus one — and dispatches it with
`pos = 100`, `prevPos = 0` and `travelDurationMs = 1000`. -/
theorem play_firstTick_timeline3 (now0 d : ℚ) (h0 : 0 ≤ d) (h1 : d < 500) :
    processActions (play (readyState timeline3) now0 500 1 false).2 (now0 + d) =
      (.dispatch 100 0 (some 1000),
        { (play (readyState timeline3) now0 500 1 false).2 with lastActionIndex := 1 }) := by
  have hplay : (play (readyState timeline3) now0 500 1 false).2 =
      { readyState timeline3 with
        playbackStartTime := now0 - 500
        playbackRate := 1
        loopPlayback := false
        lastActionIndex := -1
        isPlaying := true
        playbackIntervalSet := true } := by
    simp [play, readyState, DeviceState.isConnected, timeline3]
  rw [hplay]
  have helapsed : ((now0 + d) - (now0 - 500)) * 1 = d + 500 := by ring
  have hfind := find_timeline3_between (d + 500) (by linarith) (by linarith)
  simp only [processActions, readyState]
  rw [helapsed, hfind]
  have e1 : actionAt timeline3 1 = ⟨1000, 100⟩ := by decide
  have e0 : actionAt timeline3 0 = ⟨0, 0⟩ := by decide
  have a0 : actionAtOpt timeline3 0 = some ⟨0, 0⟩ := by decide
  norm_num [e1, e0, a0, jsSub, jsMax100]
  norm_num [timeline3]
  decide

/-- Witness for C2 at the concrete first tick `now = now0` (`d = 0`). -/
theorem play_firstTick_timeline3_witness :
    (0 : ℚ) ≤ 0 ∧ (0 : ℚ) < 500 ∧
      processActions (play (readyState timeline3) 1000 500 1 false).2 (1000 + 0) =
        (.dispatch 100 0 (some 1000),
          { (play (readyState timeline3) 1000 500 1 false).2 with lastActionIndex := 1 }) :=
  ⟨by norm_num, by norm_num, play_firstTick_timeline3 1000 0 (by norm_num) (by norm_num)⟩

end ButtplugDevice

namespace ButtplugDevice

/-- Claim C3 (divergence evidence): the duration guard in `_processActions`
tests `actionIndex < length - 1` instead of `actionIndex > 0`.  Consequences,
evaluated on the two-action timeline `[{at:100,pos:20},{at:1000,pos:90}]`:
when the very first action (index 0) is resolved (elapsed 50 ms), the code
reads `actions[-1]?.at` (`undefined`) and dispatches `durationMs = NaN`
(`none`) — not a fixed default; and when the final action is resolved
(elapsed 1500 ms), the code dispatches the fixed 500 ms default — not
`action.at - prevAction.at` floored to 100 ms (which would be 900). -/
theorem processActions_duration_guard_misplaced :
    processActions (playingState [⟨100, 20⟩, ⟨1000, 90⟩] (-1) false) 50 =
      (.dispatch 20 0 none,
        { playingState [⟨100, 20⟩, ⟨1000, 90⟩] (-1) false with lastActionIndex := 0 }) ∧
    processActions (playingState [⟨100, 20⟩, ⟨1000, 90⟩] 0 false) 1500 =
      (.dispatch 90 20 (some 500),
        { playingState [⟨100, 20⟩, ⟨1000, 90⟩] 0 false with lastActionIndex := 1 }) := by
  constructor <;>
    norm_num [processActions, playingState, findActionIndexForTime, bsearchGo,
      actionAt, actionAtOpt, jsSub, jsMax100, stop, DeviceState.isConnected]

/-- Counterexample to claim C4 as stated: on the timeline
`[{at:0,pos:0},{at:1000,pos:100}]` with `lastActionIndex = 1`, `loop = true`
and elapsed time 2500 ms, the resolved index equals `lastActionIndex`, yet
the tick (taking the end-of-timeline loop-reset branch) changes
`lastActionIndex` to `-1` — the state is not left unchanged. -/
theorem processActions_pastEnd_clears_lastIndex :
    findActionIndexForTime [⟨0, 0⟩, ⟨1000, 100⟩]
        ((2500 - (playingState [⟨0, 0⟩, ⟨1000, 100⟩] 1 true).playbackStartTime) *
          (playingState [⟨0, 0⟩, ⟨1000, 100⟩] 1 true).playbackRate) =
      (playingState [⟨0, 0⟩, ⟨1000, 100⟩] 1 true).lastActionIndex ∧
    processActions (playingState [⟨0, 0⟩, ⟨1000, 100⟩] 1 true) 2500 =
      (.loopReset,
        { playingState [⟨0, 0⟩, ⟨1000, 100⟩] 1 true with
            playbackStartTime := 2500, lastActionIndex := -1 }) ∧
    (processActions (playingState [⟨0, 0⟩, ⟨1000, 100⟩] 1 true) 2500).2.lastActionIndex ≠
      (playingState [⟨0, 0⟩, ⟨1000, 100⟩] 1 true).lastActionIndex := by
  refine ⟨?_, ?_, ?_⟩ <;>
    norm_num [processActions, playingState, findActionIndexForTime, bsearchGo,
      actionAt, actionAtOpt, jsSub, jsMax100, stop, DeviceState.isConnected]

/-- Claim C4 (amended): whenever the resolved action index equals
`lastActionIndex`, the tick dispatches no device command; and provided the
end-of-timeline branch does not also fire (resolved index the last action
with elapsed time beyond `lastAction.at + 1000`), the tick is a complete
no-op — state, `lastActionIndex` included, unchanged.  (The end-of-timeline
branch, exhibited by the counterexample, resets `lastActionIndex`.) -/
theorem processActions_idempotent_on_unchanged_index (s : DeviceState) (now : ℚ)
    (hp : s.isPlaying = true)
    (hidx : findActionIndexForTime s.currentScriptActions
        ((now - s.playbackStartTime) * s.playbackRate) = s.lastActionIndex) :
    (∀ p pp dur, (processActions s now).1 ≠ .dispatch p pp dur) ∧
    (¬ (s.lastActionIndex = (s.currentScriptActions.length : Int) - 1 ∧
        (now - s.playbackStartTime) * s.playbackRate >
          (actionAt s.currentScriptActions s.lastActionIndex).«at» + 1000) →
      processActions s now = (.noop, s)) := by
  by_cases hemp : s.currentScriptActions = []
  · constructor
    · intro p pp dur
      simp [processActions, hemp]
    · intro _
      simp [processActions, hemp]
  · have hcond : ¬ (¬ s.isPlaying ∨ s.currentScriptActions.length = 0) := by
      simp [hp, hemp]
    simp only [processActions, if_neg hcond, hidx]
    by_cases hend : s.lastActionIndex = (s.currentScriptActions.length : Int) - 1 ∧
        (now - s.playbackStartTime) * s.playbackRate >
          (actionAt s.currentScriptActions s.lastActionIndex).«at» + 1000
    · rw [if_pos hend]
      constructor
      · intro p pp dur
        by_cases hl : s.loopPlayback <;> simp [hl]
      · intro hnot
        exact absurd hend hnot
    · rw [if_neg hend]
      have hno : ¬ (s.lastActionIndex ≠ s.lastActionIndex ∧ 0 ≤ s.lastActionIndex) := by
        simp
      rw [if_neg hno]
      exact ⟨fun p pp dur => by simp, fun _ => rfl⟩

/-- Witness for the amended C4: a dwelling tick at elapsed 600 ms on the
scenario timeline with `lastActionIndex = 1` leaves the state untouched. -/
theorem processActions_idempotent_witness :
    processActions (playingState timeline3 1 false) 600 =
      (.noop, playingState timeline3 1 false) := by
  have hidx : findActionIndexForTime (playingState timeline3 1 false).currentScriptActions
      ((600 - (playingState timeline3 1 false).playbackStartTime) *
        (playingState timeline3 1 false).playbackRate) =
      (playingState timeline3 1 false).lastActionIndex := by
    norm_num [playingState]
    exact find_timeline3_between 600 (by norm_num) (by norm_num)
  have hnot : ¬ ((playingState timeline3 1 false).lastActionIndex =
      ((playingState timeline3 1 false).currentScriptActions.length : Int) - 1 ∧
      ((600 : ℚ) - (playingState timeline3 1 false).playbackStartTime) *
          (playingState timeline3 1 false).playbackRate >
        (actionAt (playingState timeline3 1 false).currentScriptActions
            (playingState timeline3 1 false).lastActionIndex).«at» + 1000) := by
    norm_num [playingState, timeline3]
  exact (processActions_idempotent_on_unchanged_index
    (playingState timeline3 1 false) 600 rfl hidx).2 hnot

end ButtplugDevice

namespace ButtplugDevice

/-- Claim C10: `syncTime(timeMs)` while connected and playing re-anchors only
`playbackStartTime` to `now - timeMs` and returns true, leaving
`lastActionIndex`, the rate, the loop flag, the action list and the playing
flag unchanged; when not connected or not playing it returns false and
changes nothing. -/
theorem syncTime_reanchors_start_only (s : DeviceState) (now timeMs : ℚ) :
    (s.isConnected = true → s.isPlaying = true →
      syncTime s now timeMs = (true, { s with playbackStartTime := now - timeMs }) ∧
      (syncTime s now timeMs).2.lastActionIndex = s.lastActionIndex ∧
      (syncTime s now timeMs).2.playbackRate = s.playbackRate ∧
      (syncTime s now timeMs).2.loopPlayback = s.loopPlayback ∧
      (syncTime s now timeMs).2.currentScriptActions = s.currentScriptActions ∧
      (syncTime s now timeMs).2.isPlaying = s.isPlaying ∧
      (syncTime s now timeMs).2.playbackStartTime = now - timeMs ∧
      (syncTime s now timeMs).1 = true) ∧
    (¬ (s.isConnected = true ∧ s.isPlaying = true) →
      syncTime s now timeMs = (false, s)) := by
  constructor
  · intro hc hp
    simp [syncTime, hc, hp]
  · intro hn
    rw [Decidable.not_and_iff_or_not] at hn
    rcases hn with h | h <;> simp [syncTime, h]

/-- Witness for C10: a playing device is re-anchored; an idle one is left
untouched with a false return. -/
theorem syncTime_reanchors_start_only_witness :
    syncTime (playingState timeline3 5 true) 10 4 =
      (true, { playingState timeline3 5 true with playbackStartTime := 10 - 4 }) ∧
    syncTime (readyState timeline3) 10 4 = (false, readyState timeline3) :=
  ⟨((syncTime_reanchors_start_only (playingState timeline3 5 true) 10 4).1 rfl rfl).1,
    (syncTime_reanchors_start_only (readyState timeline3) 10 4).2 (by decide)⟩

end ButtplugDevice

/-- Claim C8: a script whose parsed action list is empty or missing is
rejected before playback: `loadScript` returns `success = false` with a null
funscript, and `play()` returns false — scheduling no tick and changing no
state — when no script with at least one action has been prepared. -/
theorem emptyScript_rejected (content : ScriptLoader.Funscript) (inv : Bool)
    (hempty : content.actions = none ∨ content.actions = some [])
    (s : ButtplugDevice.DeviceState) (now timeMs rate : ℚ) (loop : Bool)
    (hns : s.loadedScript = false ∨ s.currentScriptActions = []) :
    (ScriptLoader.loadScript content inv).success = false ∧
    (ScriptLoader.loadScript content inv).funscript = none ∧
    ButtplugDevice.play s now timeMs rate loop = (false, s) := by
  refine ⟨?_, ?_, ?_⟩
  · rcases hempty with h | h <;>
      simp [ScriptLoader.loadScript, ScriptLoader.isValidFunscript, h]
  · rcases hempty with h | h <;>
      simp [ScriptLoader.loadScript, ScriptLoader.isValidFunscript, h]
  · rcases hns with h | h <;> simp [ButtplugDevice.play, h]

/-- Witness for C8: an empty action list is rejected by the loader, and
`play` on a device whose action list is empty fails without scheduling. -/
theorem emptyScript_rejected_witness :
    (ScriptLoader.loadScript ⟨some [], false⟩ false).success = false ∧
    (ScriptLoader.loadScript ⟨some [], false⟩ false).funscript = none ∧
    ButtplugDevice.play (ButtplugDevice.readyState []) 0 0 1 false =
      (false, ButtplugDevice.readyState []) :=
  emptyScript_rejected ⟨some [], false⟩ false (Or.inr rfl)
    (ButtplugDevice.readyState []) 0 0 1 false (Or.inr rfl)

namespace ButtplugWs

/-- Claim C9: when the transport closes — via the socket close event
(`cleanup`) or an explicit `close()` call — every request still pending in
the id-correlation map is rejected with a "Connection closed" error and the
pending map is left empty. -/
theorem cleanup_rejects_all_pending (s : WsState) :
    (cleanup s).2.pending = [] ∧
    (∀ id ∈ s.pending, (id, "Connection closed") ∈ (cleanup s).1) ∧
    (close s).2.pending = [] ∧
    (∀ id ∈ s.pending, (id, "Connection closed") ∈ (close s).1) := by
  refine ⟨rfl, ?_, rfl, ?_⟩ <;>
    · intro id hid
      exact List.mem_map_of_mem _ hid

/-- Witness for C9 on a transport with three in-flight requests. -/
theorem cleanup_rejects_all_pending_witness :
    (cleanup ⟨7, [1, 2, 3], true, some true⟩).2.pending = [] ∧
      (2, "Connection closed") ∈ (cleanup ⟨7, [1, 2, 3], true, some true⟩).1 :=
  ⟨(cleanup_rejects_all_pending ⟨7, [1, 2, 3], true, some true⟩).1,
    (cleanup_rejects_all_pending ⟨7, [1, 2, 3], true, some true⟩).2.1 2 (by decide)⟩

end ButtplugWs

namespace CommandHelpers

/-- Claim C5: with `pos = prevPos` the movement-derived vibrate intensity
(and the rotate intensity, which is the same value) is exactly 0, for every
capability set, preference set and absolute position — and consequently the
executor emits no vibrate or rotate command at all. -/
theorem translate_unchanged_position_zero (info : ButtplugDeviceInfo)
    (prefs : DevicePreference) (pos prevPos : ℚ) (dur : Option ℚ)
    (h : pos = prevPos) :
    vibrationSpeedFor prefs pos prevPos = 0 ∧
    ∀ c ∈ executeActionCommands info prefs pos prevPos dur,
      (∀ i sp, c ≠ .vibrate i sp) ∧ (∀ i sp cw, c ≠ .rotate i sp cw) := by
  subst h
  have hv : vibrationSpeedFor prefs pos pos = 0 := by
    norm_num [vibrationSpeedFor]
  refine ⟨hv, ?_⟩
  intro c hc
  by_cases he : prefs.enabled
  · simp only [executeActionCommands, hv, he] at hc
    norm_num at hc
    obtain ⟨-, rfl⟩ := hc
    exact ⟨fun i sp => by simp, fun i sp cw => by simp⟩
  · simp [executeActionCommands, he] at hc

/-- Witness for C5 at `pos = prevPos = 50` on a fully-capable, fully-enabled
device. -/
theorem translate_unchanged_position_zero_witness :
    vibrationSpeedFor ⟨true, true, true, true, some 1⟩ 50 50 = 0 :=
  (translate_unchanged_position_zero ⟨3, true, true, true⟩
    ⟨true, true, true, true, some 1⟩ 50 50 none rfl).1

end CommandHelpers

namespace HandyApi

/-- Claim C7: when zero usable probe samples are collected (every probe threw,
timed out, or returned no server time), `syncServerTime` leaves the stored
offset unchanged and returns the previously held estimate; failed probes are
skipped, never a failure of the routine (the embedding is total — there is no
error outcome). -/
theorem syncServerTime_keeps_offset_on_no_samples (probes : List ProbeOutcome)
    (prev : ℚ) (h : ∀ p ∈ probes, sampleOfProbe p = none) :
    syncServerTime probes prev = (prev, prev) := by
  have hc : collectSamples probes = [] := by
    simp only [collectSamples]
    exact List.filterMap_eq_nil_iff.mpr h
  simp [syncServerTime, syncFromSamples, hc]

/-- Witness for C7: a thrown probe, a `null` server time, and a falsy `0`
server time collect no samples; the previous offset 42 is kept. -/
theorem syncServerTime_keeps_offset_on_no_samples_witness :
    syncServerTime [.threw, .serverTime none 0 10, .serverTime (some 0) 0 10] 42 =
      (42, 42) :=
  syncServerTime_keeps_offset_on_no_samples
    [.threw, .serverTime none 0 10, .serverTime (some 0) 0 10] 42 (by decide)

/-- Claim C6: with 10 collected samples of which exactly one (the outlier) has
a round-trip delay ten times the others, the sort-by-rtd-and-keep-80% step
(more than 3 samples, so `Math.ceil(10 * 0.8) = 8` lowest-delay samples are
retained) excludes the outlier: it is not among the retained samples, every
retained sample has the common delay `d`, and the returned offset is the
arithmetic mean of the 8 retained samples' offsets — the outlier's offset
does not influence it. -/
theorem syncServerTime_discards_outlier (samples : List TimeSample)
    (o : TimeSample) (d : ℚ)
    (hlen : samples.length = 10)
    (hcount : samples.count o = 1)
    (hout : o.rtd = 10 * d)
    (hrest : ∀ s ∈ samples, s ≠ o → s.rtd = d)
    (hd : 0 < d) :
    o ∉ usableSamples samples ∧
    (usableSamples samples).length = 8 ∧
    (∀ s ∈ usableSamples samples, s.rtd = d) ∧
    ∀ prev : ℚ, syncFromSamples samples prev =
      (((usableSamples samples).foldl (fun acc sample => acc + sample.offset) 0) / 8,
        ((usableSamples samples).foldl (fun acc sample => acc + sample.offset) 0) / 8) := by
  have hperm : (sortSamplesByRtd samples).Perm samples :=
    List.perm_insertionSort _ _
  have hsort : List.Sorted (fun a b : TimeSample => a.rtd ≤ b.rtd)
      (sortSamplesByRtd samples) :=
    List.sorted_insertionSort _ _
  have hS10 : (sortSamplesByRtd samples).length = 10 := hperm.length_eq.trans hlen
  have husable : usableSamples samples = (sortSamplesByRtd samples).take 8 := by
    rw [usableSamples, if_pos (by omega), hlen]
    rfl
  have hnotin : o ∉ (sortSamplesByRtd samples).take 8 := by
    intro hin
    have hdropall : ∀ x ∈ (sortSamplesByRtd samples).drop 8, o = x := by
      intro x hx
      have hrel : o.rtd ≤ x.rtd := hsort.rel_of_mem_take_of_mem_drop hin hx
      by_contra hne
      have hxmem : x ∈ samples := hperm.mem_iff.mp (List.mem_of_mem_drop hx)
      have hxd : x.rtd = d := hrest x hxmem (fun hxo => hne (hxo ▸ rfl))
      rw [hxd, hout] at hrel
      linarith
    have hdlen : ((sortSamplesByRtd samples).drop 8).length = 2 := by
      rw [List.length_drop, hS10]
    have hcnt2 : ((sortSamplesByRtd samples).drop 8).count o = 2 := by
      rw [List.count_eq_length.mpr hdropall, hdlen]
    have hcnt1 : 0 < ((sortSamplesByRtd samples).take 8).count o :=
      List.count_pos_iff.mpr hin
    have hsplit : (sortSamplesByRtd samples).count o =
        ((sortSamplesByRtd samples).take 8).count o +
          ((sortSamplesByRtd samples).drop 8).count o := by
      rw [← List.count_append, List.take_append_drop]
    have hSc : (sortSamplesByRtd samples).count o = 1 := hperm.count_eq o ▸ hcount
    omega
  have hlen8 : ((sortSamplesByRtd samples).take 8).length = 8 := by
    rw [List.length_take, hS10]
    decide
  refine ⟨husable ▸ hnotin, husable ▸ hlen8, ?_, ?_⟩
  · intro s hs
    rw [husable] at hs
    have hmemS : s ∈ samples := hperm.mem_iff.mp (List.mem_of_mem_take hs)
    by_cases hso : s = o
    · exact absurd (hso ▸ hs) hnotin
    · exact hrest s hmemS hso
  · intro prev
    have hpos : samples.length > 0 := by omega
    have hc8 : ((usableSamples samples).length : ℚ) = 8 := by
      rw [husable, hlen8]
      norm_num
    simp only [syncFromSamples, if_pos hpos, hc8]

/-- Witness for C6: nine samples of delay 1 and one of delay 10; the outlier
is not retained. -/
theorem syncServerTime_discards_outlier_witness :
    (⟨10, 100⟩ : TimeSample) ∉ usableSamples
      [⟨1, 1⟩, ⟨1, 2⟩, ⟨1, 3⟩, ⟨1, 4⟩, ⟨10, 100⟩, ⟨1, 5⟩, ⟨1, 6⟩, ⟨1, 7⟩, ⟨1, 8⟩, ⟨1, 9⟩] :=
  (syncServerTime_discards_outlier
    [⟨1, 1⟩, ⟨1, 2⟩, ⟨1, 3⟩, ⟨1, 4⟩, ⟨10, 100⟩, ⟨1, 5⟩, ⟨1, 6⟩, ⟨1, 7⟩, ⟨1, 8⟩, ⟨1, 9⟩]
    ⟨10, 100⟩ 1 (by decide) (by decide) (by norm_num) (by decide) (by decide)).1

end HandyApi
